import Mathlib

/-!
Verification development for the `parsel-tracking` repository (src/main.py),
a Telegram parcel-tracking bot.  The development shallowly embeds the
best-effort multi-endpoint scrape-and-normalize fetcher:

* `parse_myspeedpost_html` — the markup-heuristic normalizer (main.py 55-111);
* `fetch_myspeedpost` — the sequential endpoint prober with its JSON
  field-mapping fallback (main.py 136-180);
* `track_speedpost` — the second, India-Post fetcher (main.py 118-133);
* the two message handlers `track_handler` (main.py 190-235) and
  `handle_tracking` (main.py 237-259), of which only `handle_tracking` is
  registered with the bot (main.py 277).

HTML documents are embedded abstractly as the observations BeautifulSoup
provides to the code: the flattened visible text (`get_text("\n")`), the
ordered list of elements with class/id attributes (for `soup.find`), and the
first table's rows of cell texts.  Exceptions are embedded with `Except`.
String operations are implemented structurally over `List Char` so that all
definitions evaluate inside the kernel.
-/

namespace ParselTracking

/-! ### String primitives (kernel-computable counterparts of the Python ones) -/

/-- Whitespace as stripped by Python `str.strip` (the characters that occur
in this development's inputs). -/
def isWsChar (c : Char) : Bool :=
  c == ' ' || c == '\t' || c == '\n' || c == '\r'

/-- Strip leading and trailing whitespace from a character list. -/
def trimL (l : List Char) : List Char :=
  ((l.dropWhile isWsChar).reverse.dropWhile isWsChar).reverse

/-- Python `s.strip()`. -/
def sTrim (s : String) : String := ⟨trimL s.data⟩

/-- Lower-case an ASCII letter, leave every other character unchanged. -/
def chLower (c : Char) : Char :=
  if 65 ≤ c.toNat ∧ c.toNat ≤ 90 then Char.ofNat (c.toNat + 32) else c

/-- Upper-case an ASCII letter, leave every other character unchanged. -/
def chUpper (c : Char) : Char :=
  if 97 ≤ c.toNat ∧ c.toNat ≤ 122 then Char.ofNat (c.toNat - 32) else c

/-- Python `s.lower()` (ASCII). -/
def lowerS (s : String) : String := ⟨s.data.map chLower⟩

/-- Python `s.upper()` (ASCII). -/
def upperS (s : String) : String := ⟨s.data.map chUpper⟩

/-- Python `s.replace(" ", "")`: remove every space character. -/
def removeSpaces (s : String) : String :=
  ⟨s.data.filter (fun c => !(c == ' '))⟩

/-- Does the list start with the given pattern? -/
def startsWithL : List Char → List Char → Bool
  | _, [] => true
  | [], _ :: _ => false
  | a :: as, b :: bs => a == b && startsWithL as bs

/-- Does the pattern occur somewhere in the list? -/
def containsFromL (pat : List Char) : List Char → Bool
  | [] => startsWithL [] pat
  | c :: cs => startsWithL (c :: cs) pat || containsFromL pat cs

/-- Python `pat in s` substring test. -/
def strContains (s pat : String) : Bool :=
  containsFromL pat.data s.data

/-- Split a character list at newline characters (Python `str.splitlines`
restricted to `\n`, which is the separator `get_text` inserts). -/
def splitNl : List Char → List (List Char)
  | [] => [[]]
  | c :: rest =>
    if c == '\n' then [] :: splitNl rest
    else
      match splitNl rest with
      | [] => [[c]]
      | l :: ls => (c :: l) :: ls

/-- Join character lists with a separator (Python `sep.join`). -/
def joinSepL (sep : List Char) : List (List Char) → List Char
  | [] => []
  | [l] => l
  | l :: l2 :: ls => l ++ sep ++ joinSepL sep (l2 :: ls)

/-- Python `" • ".join(parts)`. -/
def joinBullets (parts : List String) : String :=
  ⟨joinSepL " • ".data (parts.map String.data)⟩

/-- Replace the first `\x7b\x7d` placeholder in a template with `arg`
(Python `template.format(arg)`; every endpoint template holds exactly one
placeholder). -/
def substBraces (arg : List Char) : List Char → List Char
  | [] => []
  | c :: cs =>
    match cs with
    | c2 :: rest =>
      if c.toNat == 123 && c2.toNat == 125 then arg ++ rest
      else c :: substBraces arg cs
    | [] => [c]

/-- Python `template.format(tracking)` on an endpoint template. -/
def formatEndpoint (template tracking : String) : String :=
  ⟨substBraces tracking.data template.data⟩

/-! ### Python truthiness helpers -/

/-- Python truthiness of `dict.get(key)` for string-valued keys:
`none` models a missing key (`None`), `some ""` a key set to the empty
string; both are falsy. -/
def truthyOpt : Option String → Bool
  | some s => !s.isEmpty
  | none => false

/-- Python `a or b` on two optional strings: `b` whenever `a` is falsy. -/
def pyOr (a b : Option String) : Option String :=
  if truthyOpt a then a else b

/-- Python `a or b or []` on two optional lists (the history/events chain in
the JSON fallback): `a` if it is a non-empty list, else `b` if present,
else `[]`. -/
def pyOrList (a b : Option (List String)) : List String :=
  match a with
  | some l => if l.isEmpty then pyOrListTail b else l
  | none => pyOrListTail b
where
  /-- Second hop of the `or` chain (`b or []`). -/
  pyOrListTail : Option (List String) → List String
    | some l => l
    | none => []

/-! ### Data model -/

/-- The normalizer's output record (main.py 105-110): the dict
`\x7bstatus, location, datetime, history\x7d`.  A string field is `none`
when the underlying dict maps the key to `None` (or lacks it); `some ""`
models the key holding an empty string. -/
structure TrackingResult where
  status : Option String
  location : Option String
  datetime : Option String
  history : List String
  deriving DecidableEq, Repr

/-- An element as observed through `soup.find` with a `class_`/`id` filter:
its class attribute, id attribute, and `get_text(strip=True)` text. -/
structure Elem where
  className : Option String
  idAttr : Option String
  text : String
  deriving DecidableEq, Repr

/-- An HTML document, embedded as the observations `parse_myspeedpost_html`
makes of the BeautifulSoup tree:

* `text` — `soup.get_text(separator="\n").strip()` (main.py 61);
* `elems` — all elements in document order (searched by `soup.find`);
* `table` — for the first `<table>` (if any), the list of its `<tr>` rows,
  each the list of its cell texts (`td.get_text(" ", strip=True)`).
-/
structure HtmlDoc where
  text : String
  elems : List Elem
  table : Option (List (List String))
  deriving DecidableEq, Repr

/-- `lines = [ln.strip() for ln in text.splitlines() if ln.strip()]`
(main.py 62). -/
def docLines (doc : HtmlDoc) : List String :=
  ((splitNl doc.text.data).map (fun l => (⟨trimL l⟩ : String))).filter
    (fun ln => !ln.isEmpty)

/-- The `latest` dict during the line scan (main.py 64-89): each field is
`some v` iff the corresponding key has been set (possibly to `""`). -/
structure Latest where
  status : Option String
  location : Option String
  datetime : Option String
  deriving DecidableEq, Repr

/-- The keyword line scan of main.py 66-73.  For each line that has a
following line: a line containing "status" assigns
`latest["status"] = lines[i+1]` (plain assignment — a later match
overwrites an earlier one), likewise "location"; a line containing "date"
or "time" uses `setdefault` (only the first match sets the key). -/
def scanLines : List String → Latest → Latest
  | [], acc => acc
  | [_], acc => acc
  | ln :: next :: rest, acc =>
    let low := lowerS ln
    let acc1 := if strContains low "status" then { acc with status := some next } else acc
    let acc2 := if strContains low "location" then { acc1 with location := some next } else acc1
    let acc3 :=
      if strContains low "date" || strContains low "time" then
        match acc2.datetime with
        | none => { acc2 with datetime := some next }
        | some _ => acc2
      else acc2
    scanLines (next :: rest) acc3

/-- `soup.find(class_=lambda c: c and pats-match in c.lower())`: the first
element (document order) whose class attribute exists and contains one of
`pats` case-insensitively. -/
def findByClass (doc : HtmlDoc) (pats : List String) : Option Elem :=
  doc.elems.find? fun e =>
    match e.className with
    | some c => pats.any (fun p => strContains (lowerS c) p)
    | none => false

/-- `soup.find(id=lambda i: i and pat in i.lower())`: the first element
whose id attribute exists and contains `pat` case-insensitively. -/
def findById (doc : HtmlDoc) (pat : String) : Option Elem :=
  doc.elems.find? fun e =>
    match e.idAttr with
    | some i => strContains (lowerS i) pat
    | none => false

/-- One table row of the history extraction (main.py 95-98): a row is kept
iff it has cells and some cell is non-blank; its entry joins the non-empty
cells with the bullet separator. -/
def rowEntry (cols : List String) : Option String :=
  if !cols.isEmpty && cols.any (fun c => !(sTrim c).isEmpty) then
    some (joinBullets (cols.filter (fun c => !c.isEmpty)))
  else
    none

/-- The shipment-event keywords of the table-less history fallback
(main.py 101). -/
def histKeywords : List String :=
  ["delivered", "out for", "received", "bag", "dispatched", "booking", "arrived", "scan"]

/-- The final presence check of the normalizer (main.py 104-111):
`if latest or history:` — the `latest` dict is truthy iff any of its keys
has been set (even to an empty string), the history list iff non-empty. -/
def mkResult (latest : Latest) (history : List String) : Option TrackingResult :=
  if latest.status.isSome || latest.location.isSome || latest.datetime.isSome
      || !history.isEmpty then
    some ⟨latest.status, latest.location, latest.datetime, history⟩
  else
    none

/-- `parse_myspeedpost_html` (main.py 55-111): line-scan heuristics, then a
class/id attribute fallback for each unset (or falsy) field, then table-row
or keyword-line history; returns `none` iff the `latest` dict is empty and
the history list is empty. -/
def parse_myspeedpost_html (doc : HtmlDoc) : Option TrackingResult :=
  let lines := docLines doc
  let latest0 := scanLines lines ⟨none, none, none⟩
  -- class/id fallback for status (main.py 76-79)
  let latest1 :=
    if truthyOpt latest0.status then latest0
    else
      match findByClass doc ["status"] <|> findById doc "status" with
      | some el => { latest0 with status := some el.text }
      | none => latest0
  -- class/id fallback for location (main.py 81-84)
  let latest2 :=
    if truthyOpt latest1.location then latest1
    else
      match findByClass doc ["location"] <|> findById doc "location" with
      | some el => { latest1 with location := some el.text }
      | none => latest1
  -- class-only fallback for datetime (main.py 86-89)
  let latest3 :=
    if truthyOpt latest2.datetime then latest2
    else
      match findByClass doc ["date", "time"] with
      | some el => { latest2 with datetime := some el.text }
      | none => latest2
  -- table/history (main.py 92-102)
  let history :=
    match doc.table with
    | some rows => rows.filterMap rowEntry
    | none => lines.filter (fun ln => histKeywords.any (fun k => strContains (lowerS ln) k))
  mkResult latest3 history

/-! ### The endpoint prober `fetch_myspeedpost` (main.py 136-180) -/

/-- Exceptions that can be raised while fetching and decoding. -/
inductive Exn where
  /-- A transport failure raised by `client.get` (network error, timeout). -/
  | transport
  /-- A JSON decoding failure raised by `json.loads` / `resp.json()`. -/
  | jsonDecode
  deriving DecidableEq, Repr

/-- A JSON value as far as the fallback inspects it: `isinstance(j, dict)`
distinguishes a JSON object from anything else. -/
inductive JsonVal where
  /-- A JSON object, restricted to the keys the fallback reads.  A key
  mapped to `none` is absent (`j.get` returns `None`). -/
  | obj (status current_status message location current_location datetime time :
      Option String) (history events : Option (List String))
  /-- Any non-dict JSON document (list, string, number, ...). -/
  | other
  deriving DecidableEq, Repr

/-- The observable outcome of `client.get` on one endpoint URL:

* `exc e` — the call raised exception `e`;
* `ok statusCode doc ctype json` — a response whose body parses (as HTML)
  to `doc`, whose `content-type` header is `ctype`, and whose `resp.json()`
  gives `json` (`none` when `resp.json()` raises). -/
inductive Response where
  | exc (e : Exn)
  | ok (statusCode : Nat) (doc : HtmlDoc) (ctype : String) (json : Option JsonVal)
  deriving DecidableEq, Repr

/-- The JSON field-mapping fallback (main.py 163-170) applied to a decoded
JSON object: build the `data` dict from the key-alias chains and return it
iff `data.get("status") or data.get("history")` is truthy. -/
def jsonData : JsonVal → Option TrackingResult
  | JsonVal.obj status current_status message location current_location datetime time
      history events =>
    let st := pyOr (pyOr status current_status) message
    let loc := pyOr location current_location
    let dt := pyOr datetime time
    let hist := pyOrList history events
    if truthyOpt st || !hist.isEmpty then some ⟨st, loc, dt, hist⟩ else none
  | JsonVal.other => none

/-- The body of the per-endpoint `try` block (main.py 144-173), as a
computation that may raise: a raised transport exception is an `Except`
error; a non-200 status, a failed parse, a non-JSON content type, a
non-dict JSON document and the (internally caught) `resp.json()` error all
fall through to the next endpoint, i.e. return `.ok none`. -/
def attemptRaw : Response → Except Exn (Option TrackingResult)
  | Response.exc e => Except.error e
  | Response.ok statusCode doc ctype json =>
    if statusCode ≠ 200 then Except.ok none
    else
      match parse_myspeedpost_html doc with
      | some parsed => Except.ok (some parsed)
      | none =>
        if strContains ctype "application/json" then
          match json with
          | some j => Except.ok (jsonData j)
          | none => Except.ok none   -- resp.json() raised; caught by the inner try
        else Except.ok none

/-- The per-endpoint outcome as the prober sees it: `some r` iff this
endpoint produces a present result (either extraction path). -/
def normalizeResponse (r : Response) : Option TrackingResult :=
  match attemptRaw r with
  | Except.ok (some t) => some t
  | _ => none

/-- What one run of the prober's loop did: its return value, how many
endpoints it attempted, and how many times it slept the fixed
`asyncio.sleep(0.3)` delay. -/
structure FetchRun where
  result : Option TrackingResult
  attempts : Nat
  sleeps : Nat
  deriving DecidableEq, Repr

/-- The endpoint loop of main.py 142-177 over the canned responses of the
successive endpoints: a raised exception is caught, sleeps, and advances; a
quiet miss advances with no sleep; a present result returns immediately. -/
def fetchLoop : List Response → FetchRun
  | [] => ⟨none, 0, 0⟩
  | r :: rest =>
    match attemptRaw r with
    | Except.error _ =>
      let f := fetchLoop rest
      ⟨f.result, f.attempts + 1, f.sleeps + 1⟩
    | Except.ok (some t) => ⟨some t, 1, 0⟩
    | Except.ok none =>
      let f := fetchLoop rest
      ⟨f.result, f.attempts + 1, f.sleeps⟩

/-- The endpoint templates `MYSPEEDPOST_ENDPOINTS` (main.py 34-41). -/
def MYSPEEDPOST_ENDPOINTS : List String :=
  ["https://myspeedpost.com/track?num=\x7b\x7d",
   "https://myspeedpost.com/track?number=\x7b\x7d",
   "https://myspeedpost.com/track/\x7b\x7d",
   "https://myspeedpost.com/?num=\x7b\x7d",
   "https://myspeedpost.com/?awb=\x7b\x7d",
   "https://myspeedpost.com/?tracking=\x7b\x7d"]

/-- `fetch_myspeedpost` (main.py 136-180): format each endpoint template
with the tracking identifier, in list order, and run the loop against the
environment `respond`, which maps each concrete URL to the outcome of
`client.get` on it. -/
def fetch_myspeedpost (respond : String → Response) (tracking : String) : FetchRun :=
  fetchLoop (MYSPEEDPOST_ENDPOINTS.map (fun t => respond (formatEndpoint t tracking)))

/-! ### The second fetcher `track_speedpost` (main.py 118-133) -/

/-- One consignment item of the India-Post JSON (`data["consignment"][i]`),
restricted to the keys read; `none` models a missing key. -/
structure TSItem where
  Status : Option String
  OfficeName : Option String
  EventDate : Option String
  deriving DecidableEq, Repr

/-- What `client.get` on the India-Post URL yields to `track_speedpost`:

* `netErr` — the GET raised;
* `resp none` — a body on which `json.loads` raises;
* `resp (some items)` — a JSON body decoding to a dict whose
  `"consignment"` key holds the list `items` (a missing key and an empty
  list are both modelled by `[]`: `data.get("consignment")` is falsy for
  both). -/
inductive TSWire where
  | netErr
  | resp (json : Option (List TSItem))
  deriving DecidableEq, Repr

/-- `track_speedpost`'s result dict (main.py 128-133). -/
structure SpeedResult where
  number : String
  status : String
  location : String
  time : String
  deriving DecidableEq, Repr

/-- The India-Post URL built at main.py 119 (the tracking identifier is
substituted into the query string as-is). -/
def track_speedpost_url (tracking_no : String) : String :=
  "https://www.indiapost.gov.in/_layouts/15/IPSAPI/Tracking/TrackConsignment.aspx?consignment="
    ++ tracking_no

/-- `track_speedpost` (main.py 118-133).  There is no `try`/`except` in the
function: a transport error from `client.get` and a `json.loads` decoding
error both propagate to the caller (an `Except.error`). -/
def track_speedpost (tracking_no : String) (wire : TSWire) :
    Except Exn (Option SpeedResult) :=
  match wire with
  | TSWire.netErr => Except.error Exn.transport
  | TSWire.resp none => Except.error Exn.jsonDecode
  | TSWire.resp (some items) =>
    match items with
    | [] => Except.ok none
    | item :: _ =>
      Except.ok (some
        ⟨tracking_no,
         item.Status.getD "Not available",
         item.OfficeName.getD "Not available",
         item.EventDate.getD "Not available"⟩)

/-! ### Message handlers (main.py 190-259) -/

/-- The identifier `track_handler` builds before calling
`fetch_myspeedpost` (main.py 191, 196): `text.strip().upper().replace(" ", "")`. -/
def track_handler_tracking (text : String) : String :=
  removeSpaces (upperS (sTrim text))

/-- The identifier `handle_tracking` builds before calling
`track_speedpost` (main.py 238): `update.message.text.strip()` — no
uppercasing and no space removal. -/
def handle_tracking_tracking (text : String) : String :=
  sTrim text

/-- What `handle_tracking` (main.py 237-249) decides to do with a message:
reject locally, or probe the network with a tracking identifier. -/
inductive HandlerAction where
  /-- `len(tracking_no) < 8`: reply "Please enter a valid tracking number"
  without any network call (main.py 240-242). -/
  | localReject
  /-- Forward the identifier to `track_speedpost` (main.py 246). -/
  | probe (tracking : String)
  deriving DecidableEq, Repr

/-- The local-validation step of `handle_tracking` (main.py 238-246). -/
def handle_tracking_action (text : String) : HandlerAction :=
  let tracking_no := sTrim text
  if tracking_no.length < 8 then HandlerAction.localReject
  else HandlerAction.probe tracking_no

/-! ### Spec-level predicates and characterizations -/

/-- At least one field of the result dict has been set (possibly to an
empty string) or the history is non-empty — exactly the condition under
which the normalizer reports presence. -/
def hasSetField (t : TrackingResult) : Bool :=
  t.status.isSome || t.location.isSome || t.datetime.isSome || !t.history.isEmpty

/-- The spec's stronger claim-side predicate: at least one of
status/location/datetime is non-null AND non-empty, or the history is
non-empty. -/
def hasNonEmptyField (t : TrackingResult) : Bool :=
  truthyOpt t.status || truthyOpt t.location || truthyOpt t.datetime || !t.history.isEmpty

/-- The candidate values a trigger family produces during the line scan:
for each line containing one of `pats` (case-insensitively) that has a
following line, that following line, in document order. -/
def triggerFollowers (pats : List String) : List String → List String
  | [] => []
  | [_] => []
  | ln :: next :: rest =>
    (if pats.any (fun p => strContains (lowerS ln) p) then [next] else []) ++
      triggerFollowers pats (next :: rest)

/-- Last-write-wins resolution: the last candidate if any, else the
initial value (plain dict assignment). -/
def lastSet : Option String → List String → Option String
  | a, [] => a
  | _, x :: l => lastSet (some x) l

/-- Set-if-absent resolution: the initial value if set, else the first
candidate (`dict.setdefault`). -/
def firstSet (a : Option String) (l : List String) : Option String :=
  match a with
  | some v => some v
  | none => l.head?

/-! ### Helper lemmas -/

theorem truthyOpt_isSome {a : Option String} (h : truthyOpt a = true) :
    a.isSome = true := by
  cases a <;> simp_all [truthyOpt]

theorem mkResult_some {latest : Latest} {history : List String} {t : TrackingResult}
    (h : mkResult latest history = some t) : hasSetField t = true := by
  unfold mkResult at h
  split at h
  · cases h
    assumption
  · cases h

theorem parse_present {doc : HtmlDoc} {t : TrackingResult}
    (h : parse_myspeedpost_html doc = some t) : hasSetField t = true := by
  simp only [parse_myspeedpost_html] at h
  exact mkResult_some h

theorem jsonData_present {j : JsonVal} {t : TrackingResult}
    (h : jsonData j = some t) : (truthyOpt t.status || !t.history.isEmpty) = true := by
  cases j with
  | obj status current_status message location current_location datetime time history events =>
    simp only [jsonData] at h
    split at h
    · cases h
      assumption
    · cases h
  | other => simp [jsonData] at h

theorem attemptRaw_present {r : Response} {t : TrackingResult}
    (h : attemptRaw r = Except.ok (some t)) :
    (∃ doc, parse_myspeedpost_html doc = some t) ∨ (∃ j, jsonData j = some t) := by
  cases r with
  | exc e => cases h
  | ok statusCode doc ctype json =>
    simp only [attemptRaw] at h
    split at h
    · cases h
    · split at h
      · cases h
        exact Or.inl ⟨doc, by assumption⟩
      · split at h
        · cases json with
          | some j =>
            injection h with h2
            exact Or.inr ⟨j, h2⟩
          | none => cases h
        · cases h

theorem normalizeResponse_eq_some {r : Response} {t : TrackingResult} :
    normalizeResponse r = some t ↔ attemptRaw r = Except.ok (some t) := by
  cases hA : attemptRaw r with
  | error e => simp [normalizeResponse, hA]
  | ok v => cases v <;> simp [normalizeResponse, hA]

theorem normalizeResponse_present {r : Response} {t : TrackingResult}
    (h : normalizeResponse r = some t) : hasSetField t = true := by
  rcases attemptRaw_present (normalizeResponse_eq_some.mp h) with ⟨doc, hp⟩ | ⟨j, hj⟩
  · exact parse_present hp
  · have hd := jsonData_present hj
    rcases Bool.or_eq_true _ _ |>.mp hd with h1 | h2
    · simp [hasSetField, truthyOpt_isSome h1]
    · simp [hasSetField, h2]

theorem fetchLoop_cons_error {r : Response} {e : Exn} (rs : List Response)
    (h : attemptRaw r = Except.error e) :
    fetchLoop (r :: rs) =
      ⟨(fetchLoop rs).result, (fetchLoop rs).attempts + 1, (fetchLoop rs).sleeps + 1⟩ := by
  simp [fetchLoop, h]

theorem fetchLoop_cons_quiet {r : Response} (rs : List Response)
    (h : attemptRaw r = Except.ok none) :
    fetchLoop (r :: rs) =
      ⟨(fetchLoop rs).result, (fetchLoop rs).attempts + 1, (fetchLoop rs).sleeps⟩ := by
  simp [fetchLoop, h]

theorem fetchLoop_cons_hit {r : Response} {t : TrackingResult} (rs : List Response)
    (h : attemptRaw r = Except.ok (some t)) :
    fetchLoop (r :: rs) = ⟨some t, 1, 0⟩ := by
  simp [fetchLoop, h]

theorem fetchLoop_result_eq_findSome (rs : List Response) :
    (fetchLoop rs).result = rs.findSome? normalizeResponse := by
  induction rs with
  | nil => simp [fetchLoop]
  | cons r rs ih =>
    cases hA : attemptRaw r with
    | error e =>
      rw [fetchLoop_cons_error rs hA]
      simp [List.findSome?_cons, normalizeResponse, hA, ih]
    | ok v =>
      cases v with
      | none =>
        rw [fetchLoop_cons_quiet rs hA]
        simp [List.findSome?_cons, normalizeResponse, hA, ih]
      | some t =>
        rw [fetchLoop_cons_hit rs hA]
        simp [List.findSome?_cons, normalizeResponse, hA]

theorem fetchLoop_all_miss {rs : List Response}
    (h : ∀ r ∈ rs, normalizeResponse r = none) :
    (fetchLoop rs).result = none ∧ (fetchLoop rs).attempts = rs.length := by
  induction rs with
  | nil => simp [fetchLoop]
  | cons r rs ih =>
    have hr := h r (List.mem_cons_self r rs)
    have hrest := ih fun x hx => h x (List.mem_cons_of_mem r hx)
    cases hA : attemptRaw r with
    | error e =>
      rw [fetchLoop_cons_error rs hA]
      simp [hrest.1, hrest.2]
    | ok v =>
      cases v with
      | none =>
        rw [fetchLoop_cons_quiet rs hA]
        simp [hrest.1, hrest.2]
      | some t =>
        rw [normalizeResponse_eq_some.mpr hA] at hr
        cases hr

theorem fetchLoop_first_hit {pre : List Response} {r : Response} {t : TrackingResult}
    (post : List Response) (hpre : ∀ x ∈ pre, normalizeResponse x = none)
    (hr : normalizeResponse r = some t) :
    (fetchLoop (pre ++ r :: post)).result = some t ∧
      (fetchLoop (pre ++ r :: post)).attempts = pre.length + 1 := by
  induction pre with
  | nil =>
    rw [List.nil_append, fetchLoop_cons_hit post (normalizeResponse_eq_some.mp hr)]
    exact ⟨rfl, rfl⟩
  | cons x pre ih =>
    have hx := hpre x (List.mem_cons_self x pre)
    have hrest := ih fun y hy => hpre y (List.mem_cons_of_mem x hy)
    cases hA : attemptRaw x with
    | error e =>
      rw [List.cons_append, fetchLoop_cons_error (pre ++ r :: post) hA]
      simp [hrest.1, hrest.2]
    | ok v =>
      cases v with
      | none =>
        rw [List.cons_append, fetchLoop_cons_quiet (pre ++ r :: post) hA]
        simp [hrest.1, hrest.2]
      | some t2 =>
        rw [normalizeResponse_eq_some.mpr hA] at hx
        cases hx

theorem lastSet_some (v : String) (l : List String) :
    lastSet (some v) l = (v :: l).getLast? := by
  induction l generalizing v with
  | nil => simp [lastSet]
  | cons x xs ih => rw [lastSet, ih x, List.getLast?_cons_cons]

theorem lastSet_none (l : List String) : lastSet none l = l.getLast? := by
  cases l with
  | nil => simp [lastSet]
  | cons x xs => rw [lastSet, lastSet_some]

theorem scanLines_eq (lines : List String) :
    ∀ acc, scanLines lines acc =
      ⟨lastSet acc.status (triggerFollowers ["status"] lines),
       lastSet acc.location (triggerFollowers ["location"] lines),
       firstSet acc.datetime (triggerFollowers ["date", "time"] lines)⟩ := by
  induction lines with
  | nil =>
    rintro ⟨s, l, d⟩
    cases d <;> simp [scanLines, triggerFollowers, lastSet, firstSet]
  | cons ln rest ih =>
    rintro ⟨s, l, d⟩
    cases rest with
    | nil => cases d <;> simp [scanLines, triggerFollowers, lastSet, firstSet]
    | cons next rest2 =>
      rw [scanLines, ih]
      by_cases hs : strContains (lowerS ln) "status" = true <;>
        by_cases hl : strContains (lowerS ln) "location" = true <;>
        by_cases hd : (strContains (lowerS ln) "date" || strContains (lowerS ln) "time") = true <;>
        cases d <;>
        simp [triggerFollowers, hs, hl, hd, lastSet, firstSet]

theorem findSome?_mem {α β : Type} {f : α → Option β} {l : List α} {b : β}
    (h : l.findSome? f = some b) : ∃ a ∈ l, f a = some b := by
  induction l with
  | nil => simp [List.findSome?_nil] at h
  | cons x xs ih =>
    cases hx : f x with
    | some v =>
      simp only [List.findSome?_cons, hx] at h
      cases h
      exact ⟨x, List.mem_cons_self x xs, hx⟩
    | none =>
      simp only [List.findSome?_cons, hx] at h
      rcases ih h with ⟨a, ha, hfa⟩
      exact ⟨a, List.mem_cons_of_mem x ha, hfa⟩

/-! ### Claim theorems -/

/-- C1 (counterexample): the claim that the normalizer/prober never returns
a result with all of status/location/datetime/history null or empty is
false.  On the HTML document `<div class="status"></div>` (flattened text
empty, one element whose class is "status" and whose text is empty), the
attribute fallback sets `status` to the empty string, so the prober returns
a present result whose four fields are all null or empty. -/
theorem C1_counterexample :
    fetch_myspeedpost
        (fun _ => Response.ok 200 ⟨"", [⟨some "status", none, ""⟩], none⟩ "" none)
        "EZ123456789IN" =
      ⟨some ⟨some "", none, none, []⟩, 1, 0⟩ ∧
    hasNonEmptyField ⟨some "", none, none, []⟩ = false := by
  decide

/-- C1 (amended): every present result of the normalizer — and hence of the
prober at every layer — has at least one of status/location/datetime
non-null or a non-empty history (`hasSetField`); the non-null field may,
however, hold the empty string. -/
theorem C1_theorem :
    (∀ doc t, parse_myspeedpost_html doc = some t → hasSetField t = true) ∧
    (∀ r t, normalizeResponse r = some t → hasSetField t = true) ∧
    (∀ rs t, (fetchLoop rs).result = some t → hasSetField t = true) ∧
    (∀ respond tracking t, (fetch_myspeedpost respond tracking).result = some t →
      hasSetField t = true) := by
  have hloop : ∀ rs t, (fetchLoop rs).result = some t → hasSetField t = true := by
    intro rs t h
    rw [fetchLoop_result_eq_findSome] at h
    rcases findSome?_mem h with ⟨r, _, hr⟩
    exact normalizeResponse_present hr
  exact ⟨fun doc t h => parse_present h, fun r t h => normalizeResponse_present h, hloop,
    fun respond tracking t h => hloop _ t h⟩

/-- C1 (witness): a concrete present response with a set status field. -/
theorem C1_witness :
    normalizeResponse (Response.ok 200 ⟨"Status\nDelivered", [], none⟩ "" none) =
      some ⟨some "Delivered", none, none, ["Delivered"]⟩ ∧
    hasSetField ⟨some "Delivered", none, none, ["Delivered"]⟩ = true :=
  ⟨by decide,
    C1_theorem.2.1 (Response.ok 200 ⟨"Status\nDelivered", [], none⟩ "" none)
      ⟨some "Delivered", none, none, ["Delivered"]⟩ (by decide)⟩

/-- C2: the prober takes the endpoints strictly in list order — its result
is the first present-parseable response (`List.findSome?`); after a hit at
position `i` exactly `i + 1` endpoints were attempted (later ones are never
contacted); and when every endpoint misses it returns Absent with attempt
count equal to the number of endpoints (`MYSPEEDPOST_ENDPOINTS.length`). -/
theorem C2_theorem :
    (∀ rs, (fetchLoop rs).result = rs.findSome? normalizeResponse) ∧
    (∀ pre r post t, (∀ x ∈ pre, normalizeResponse x = none) →
      normalizeResponse r = some t →
      (fetchLoop (pre ++ r :: post)).result = some t ∧
        (fetchLoop (pre ++ r :: post)).attempts = pre.length + 1) ∧
    (∀ rs, (∀ x ∈ rs, normalizeResponse x = none) →
      (fetchLoop rs).result = none ∧ (fetchLoop rs).attempts = rs.length) ∧
    (∀ respond tracking, (fetch_myspeedpost respond tracking).result = none →
      (fetch_myspeedpost respond tracking).attempts = MYSPEEDPOST_ENDPOINTS.length) := by
  refine ⟨fetchLoop_result_eq_findSome,
    fun pre r post t hp hr => fetchLoop_first_hit post hp hr,
    fun rs h => fetchLoop_all_miss h, ?_⟩
  intro respond tracking h
  unfold fetch_myspeedpost at h ⊢
  rw [fetchLoop_result_eq_findSome] at h
  have hall := List.findSome?_eq_none_iff.mp h
  rw [(fetchLoop_all_miss hall).2, List.length_map]

/-- C2 (witness): all-miss and first-hit scenarios at concrete inputs. -/
theorem C2_witness :
    (fetch_myspeedpost (fun _ => Response.ok 404 ⟨"", [], none⟩ "" none)
        "EZ123456789IN").attempts = MYSPEEDPOST_ENDPOINTS.length ∧
    (fetchLoop ([Response.exc Exn.transport] ++
        Response.ok 200 ⟨"Status\nDelivered", [], none⟩ "" none ::
          [Response.exc Exn.transport])).result =
      some ⟨some "Delivered", none, none, ["Delivered"]⟩ ∧
    (fetchLoop ([Response.exc Exn.transport] ++
        Response.ok 200 ⟨"Status\nDelivered", [], none⟩ "" none ::
          [Response.exc Exn.transport])).attempts = 2 := by
  refine ⟨C2_theorem.2.2.2 _ _ (by decide), ?_, ?_⟩
  · exact (C2_theorem.2.1 [Response.exc Exn.transport]
      (Response.ok 200 ⟨"Status\nDelivered", [], none⟩ "" none) [Response.exc Exn.transport]
      ⟨some "Delivered", none, none, ["Delivered"]⟩ (by decide) (by decide)).1
  · exact (C2_theorem.2.1 [Response.exc Exn.transport]
      (Response.ok 200 ⟨"Status\nDelivered", [], none⟩ "" none) [Response.exc Exn.transport]
      ⟨some "Delivered", none, none, ["Delivered"]⟩ (by decide) (by decide)).2

/-- C3 (counterexample): the claim that the first trigger line determines
`status` is false: with flattened lines `Status, Alpha, Status, Beta` the
code's plain dict assignment makes the *second* trigger win, so `status`
is `Beta`, not `Alpha`. -/
theorem C3_counterexample :
    parse_myspeedpost_html ⟨"Status\nAlpha\nStatus\nBeta", [], none⟩ =
      some ⟨some "Beta", none, none, []⟩ ∧
    (some "Beta" : Option String) ≠ some "Alpha" := by
  decide

/-- C3 (amended): in the line scan, `status` and `location` resolve to the
line following the *last* trigger line (plain assignment, last match wins),
while `datetime` resolves to the line following the *first* "date"/"time"
trigger line (`setdefault`, set-if-absent). -/
theorem C3_theorem :
    ∀ lines, scanLines lines ⟨none, none, none⟩ =
      ⟨(triggerFollowers ["status"] lines).getLast?,
       (triggerFollowers ["location"] lines).getLast?,
       (triggerFollowers ["date", "time"] lines).head?⟩ := by
  intro lines
  rw [scanLines_eq]
  simp [lastSet_none, firstSet]

/-- C4 (counterexample): the claim that no exception raised while fetching
or decoding propagates out of `track_speedpost` is false: on a response
body that is not valid JSON, the `json.loads` error propagates to the
caller (there is no `try`/`except` in `track_speedpost`). -/
theorem C4_counterexample :
    track_speedpost "EZ123456789IN" (TSWire.resp none) = Except.error Exn.jsonDecode :=
  rfl

/-- C4 (amended): inside `fetch_myspeedpost` every per-endpoint exception
is caught and converted to a miss (the loop sleeps once and continues with
the remaining endpoints, leaving the result unchanged); `track_speedpost`,
by contrast, catches nothing: a transport error or a JSON decoding error is
returned as a propagating exception to its caller. -/
theorem C4_theorem :
    (∀ r rs e, attemptRaw r = Except.error e →
      fetchLoop (r :: rs) =
        ⟨(fetchLoop rs).result, (fetchLoop rs).attempts + 1, (fetchLoop rs).sleeps + 1⟩) ∧
    (∀ tracking_no, track_speedpost tracking_no TSWire.netErr = Except.error Exn.transport ∧
      track_speedpost tracking_no (TSWire.resp none) = Except.error Exn.jsonDecode) :=
  ⟨fun _ rs _ h => fetchLoop_cons_error rs h, fun _ => ⟨rfl, rfl⟩⟩

/-- C4 (witness): a raised transport exception on the only endpoint is
caught and yields an Absent run that attempted and slept once. -/
theorem C4_witness :
    attemptRaw (Response.exc Exn.transport) = Except.error Exn.transport ∧
    fetchLoop [Response.exc Exn.transport] = ⟨none, 1, 1⟩ := by
  have h := C4_theorem.1 (Response.exc Exn.transport) [] Exn.transport rfl
  exact ⟨rfl, by rw [h]; rfl⟩

/-- C5 (counterexample): the claim that no tracking identifier is rejected
locally is false: the registered handler `handle_tracking` rejects any
identifier shorter than 8 characters without contacting the network. -/
theorem C5_counterexample :
    handle_tracking_action "ABC" = HandlerAction.localReject ∧ "ABC" ≠ "" := by
  decide

/-- C5 (amended): identifiers whose stripped length is at least 8 are
forwarded (stripped, otherwise unvalidated) to the network probe; shorter
inputs — including non-empty ones — are rejected locally by
`handle_tracking`'s length check. -/
theorem C5_theorem :
    ∀ text, 8 ≤ (sTrim text).length →
      handle_tracking_action text = HandlerAction.probe (sTrim text) := by
  intro text h
  simp only [handle_tracking_action]
  rw [if_neg (by omega)]

/-- C5 (witness): a length-13 identifier is forwarded. -/
theorem C5_witness :
    8 ≤ (sTrim "EZ123456789IN").length ∧
    handle_tracking_action "EZ123456789IN" = HandlerAction.probe (sTrim "EZ123456789IN") :=
  ⟨by decide, C5_theorem "EZ123456789IN" (by decide)⟩

/-- C6 (counterexample): the claim that the identifier is uppercased and
space-stripped before URL substitution on *every* handler path that issues
a fetch is false: the registered `handle_tracking` path only strips the
input, so `" ez123456789in "` reaches the India-Post URL as
`"ez123456789in"`, not `"EZ123456789IN"`. -/
theorem C6_counterexample :
    handle_tracking_tracking " ez123456789in " = "ez123456789in" ∧
    track_speedpost_url (handle_tracking_tracking " ez123456789in ") ≠
      track_speedpost_url "EZ123456789IN" := by
  decide

/-- C6 (amended): the `track_handler` path normalizes
`" ez123456789in "` to `"EZ123456789IN"` (uppercase, spaces removed), but
the registered `handle_tracking` path substitutes the merely stripped
`"ez123456789in"` into the India-Post URL. -/
theorem C6_theorem :
    track_handler_tracking " ez123456789in " = "EZ123456789IN" ∧
    handle_tracking_tracking " ez123456789in " = "ez123456789in" ∧
    track_speedpost_url (handle_tracking_tracking " ez123456789in ") =
      "https://www.indiapost.gov.in/_layouts/15/IPSAPI/Tracking/TrackConsignment.aspx?consignment=ez123456789in" := by
  decide

/-- C7 (counterexample): the claim that the prober sleeps the fixed delay
after every miss kind is false: with all six endpoints answering HTTP 404,
the probe makes six attempts and sleeps zero times (the `asyncio.sleep`
only sits in the `except` branch). -/
theorem C7_counterexample :
    fetch_myspeedpost (fun _ => Response.ok 404 ⟨"", [], none⟩ "" none) "EZ123456789IN" =
      ⟨none, 6, 0⟩ := by
  decide

/-- C7 (amended): a non-200 response is a quiet miss (`Except.ok none`),
and quiet misses — non-200 responses and parse misses — advance to the next
endpoint without sleeping; only attempts that raise an exception add one
sleep of the fixed delay. -/
theorem C7_theorem :
    (∀ sc doc ct j, sc ≠ 200 → attemptRaw (Response.ok sc doc ct j) = Except.ok none) ∧
    (∀ r rs, attemptRaw r = Except.ok none →
      (fetchLoop (r :: rs)).sleeps = (fetchLoop rs).sleeps ∧
        (fetchLoop (r :: rs)).attempts = (fetchLoop rs).attempts + 1) ∧
    (∀ r rs e, attemptRaw r = Except.error e →
      (fetchLoop (r :: rs)).sleeps = (fetchLoop rs).sleeps + 1) := by
  refine ⟨?_, ?_, ?_⟩
  · intro sc doc ct j h
    simp only [attemptRaw]
    rw [if_pos h]
  · intro r rs h
    rw [fetchLoop_cons_quiet rs h]
    exact ⟨rfl, rfl⟩
  · intro r rs e h
    rw [fetchLoop_cons_error rs h]

/-- C7 (witness): a 404 miss sleeps zero times, an exception miss once. -/
theorem C7_witness :
    attemptRaw (Response.ok 404 ⟨"", [], none⟩ "" none) = Except.ok none ∧
    (fetchLoop [Response.ok 404 ⟨"", [], none⟩ "" none]).sleeps = 0 ∧
    (fetchLoop [Response.exc Exn.transport]).sleeps = 1 := by
  have h1 := C7_theorem.1 404 ⟨"", [], none⟩ "" none (by decide)
  have h2 := (C7_theorem.2.1 _ [] h1).1
  have h3 := C7_theorem.2.2 (Response.exc Exn.transport) [] Exn.transport rfl
  exact ⟨h1, by rw [h2]; rfl, by rw [h3]; rfl⟩

/-- C8: on HTML whose flattened lines are `Status, Delivered` followed by
the cells of a table row `01-01-2024 / Mumbai / In Transit`, the
normalizer resolves `status` to `"Delivered"` by line adjacency, and the
history holds the row's non-empty cells joined with the bullet
separator. -/
theorem C8_theorem :
    parse_myspeedpost_html
        ⟨"Status\nDelivered\n01-01-2024\nMumbai\nIn Transit", [],
          some [["01-01-2024", "Mumbai", "In Transit"]]⟩ =
      some ⟨some "Delivered", none, none, ["01-01-2024 • Mumbai • In Transit"]⟩ := by
  decide

/-- C9: on the compact JSON body
`\x7b"current_status":"Booked","events":["Booked at origin"]\x7d` served
with an `application/json` content type, the markup path yields nothing
(the single flattened line has no following line) and the key-alias
fallback returns status `"Booked"` with history `["Booked at origin"]`. -/
theorem C9_theorem :
    parse_myspeedpost_html
        ⟨"\x7b\"current_status\":\"Booked\",\"events\":[\"Booked at origin\"]\x7d", [], none⟩ =
      none ∧
    normalizeResponse
        (Response.ok 200
          ⟨"\x7b\"current_status\":\"Booked\",\"events\":[\"Booked at origin\"]\x7d", [], none⟩
          "application/json"
          (some (JsonVal.obj none (some "Booked") none none none none none none
            (some ["Booked at origin"])))) =
      some ⟨some "Booked", none, none, ["Booked at origin"]⟩ := by
  decide

/-- C10: on a 200 response the markup path runs first whatever the content
type: a successful parse is returned as-is; the structured-data path is
consulted only when the markup path is Absent and the content type contains
`application/json`; and on a pretty-printed JSON body whose lines trigger
the keyword heuristics, the returned result is the markup one (status
`"Delivered"` with its JSON quotes), not the structured extraction
(status `Delivered`). -/
theorem C10_theorem :
    (∀ doc ct j p, parse_myspeedpost_html doc = some p →
      normalizeResponse (Response.ok 200 doc ct j) = some p) ∧
    (∀ doc ct j, parse_myspeedpost_html doc = none →
      strContains ct "application/json" = false →
      normalizeResponse (Response.ok 200 doc ct j) = none) ∧
    (normalizeResponse
        (Response.ok 200 ⟨"\x7b\n  \"current_status\":\n  \"Delivered\"\n\x7d", [], none⟩
          "application/json"
          (some (JsonVal.obj none (some "Delivered") none none none none none none none))) =
      some ⟨some "\"Delivered\"", none, none, ["\"Delivered\""]⟩ ∧
    jsonData (JsonVal.obj none (some "Delivered") none none none none none none none) =
      some ⟨some "Delivered", none, none, []⟩ ∧
    (⟨some "\"Delivered\"", none, none, ["\"Delivered\""]⟩ : TrackingResult) ≠
      ⟨some "Delivered", none, none, []⟩) := by
  refine ⟨?_, ?_, by decide⟩
  · intro doc ct j p h
    rw [normalizeResponse_eq_some]
    simp only [attemptRaw]
    rw [if_neg (by decide), h]
  · intro doc ct j h hct
    have hA : attemptRaw (Response.ok 200 doc ct j) = Except.ok none := by
      simp only [attemptRaw]
      rw [if_neg (by decide), h, hct]
      simp
    simp [normalizeResponse, hA]

/-- C10 (witness): concrete instances of both general parts. -/
theorem C10_witness :
    parse_myspeedpost_html ⟨"Status\nDelivered", [], none⟩ =
      some ⟨some "Delivered", none, none, ["Delivered"]⟩ ∧
    normalizeResponse
        (Response.ok 200 ⟨"Status\nDelivered", [], none⟩ "application/json"
          (some JsonVal.other)) =
      some ⟨some "Delivered", none, none, ["Delivered"]⟩ ∧
    parse_myspeedpost_html ⟨"", [], none⟩ = none ∧
    normalizeResponse (Response.ok 200 ⟨"", [], none⟩ "text/html" none) = none :=
  ⟨by decide, C10_theorem.1 _ _ _ _ (by decide), by decide,
    C10_theorem.2.1 _ _ _ (by decide) (by decide)⟩

end ParselTracking
